import Mathlib

/-
Verification of the result-normalization core of `aide/interpreter_sandbox_attempt.py`
(`ExecutionResult` dataclass and `Interpreter.run`).

Modelling decisions:
- Python strings are Lean `String`; the exit status is `Int`; wall-clock readings are `Rat`
  (the code calls `time.time()` once before the backend call and once after, on whichever
  path is taken; the two readings are the `t0` and `t1` parameters of `run`).
- The sandbox backend (`self.sandbox.exec(cmd, input, timeout, cwd)`) is external to the
  repository; one invocation is modelled as a function from the four arguments actually
  passed by `run` to an outcome, which is either a response record
  (stdout, stderr, returncode) or a raised exception (class name and `str(e)` message).
- `humanize.naturaldelta` is an external library function; it is passed to `run` as an
  opaque-but-concrete function parameter `naturaldelta : Rat -> String`.
- A Python `dict` payload (`exc_info`) is a list of key/value pairs; the code only ever
  builds single-entry dicts with an `Int` or `String` value.
- A raised Python exception is a `PyError` (class name, message); `run` returning
  normally is `Except.ok`, `run` raising is `Except.error`.
-/

set_option linter.unusedVariables false

deriving instance DecidableEq for Except

namespace AideInterp

/-- Value stored in an `exc_info` dict: the code stores either the integer
returncode or a stringified error message. -/
inductive DictVal where
  | int (n : Int)
  | str (s : String)
deriving DecidableEq, Repr

/-- A Python dict as built by the code: ordered key/value pairs. -/
abbrev PyDict := List (String × DictVal)

/-- A raised Python exception: class name (`e.__class__.__name__`) and message (`str(e)`). -/
structure PyError where
  className : String
  message : String
deriving DecidableEq, Repr

/-- The `ExecutionResult` dataclass: output lines, execution time, exception type name,
exception info dict, exception stack (never populated by this code). -/
structure ExecutionResult where
  term_out : List String
  exec_time : Rat
  exc_type : Option String
  exc_info : Option PyDict
  exc_stack : Option (List (List String))
deriving DecidableEq, Repr

/-- Outcome of a single backend invocation: either the backend responds with
stdout text, stderr text and a returncode, or invoking it raises an exception. -/
inductive SandboxOutcome where
  | ok (stdout stderr : String) (returncode : Int)
  | raises (className message : String)
deriving DecidableEq, Repr

/-- A sandbox backend, modelled extensionally as what one `exec` invocation with the
given cmd, input, timeout and cwd produces. -/
abbrev Sandbox := List String → String → Int → String → SandboxOutcome

/-- The `Interpreter` configuration, set at construction. -/
structure Interpreter where
  working_dir : String
  timeout : Int := 3600
  format_tb_ipython : Bool := false
  agent_file_name : String := "runfile.py"
  sandbox : Option Sandbox := none

/-- The synthesized informational line appended to `term_out`:
`f"Execution time: \x7bhumanize.naturaldelta(exec_time)\x7d seconds (time limit is \x7bhumanize.naturaldelta(self.timeout)\x7d)."` -/
def timingLine (naturaldelta : Rat → String) (exec_time : Rat) (timeout : Int) : String :=
  "Execution time: " ++ naturaldelta exec_time ++ " seconds (time limit is "
    ++ naturaldelta (timeout : Rat) ++ ")."

/-- The constant exception-type tag the code assigns when the backend reports a
non-zero returncode (the spec calls this tag `runtime failure`). -/
def runtimeFailureTag : String := "RuntimeError"

/-- `Interpreter.run(code, reset_session)`: `t0` is the `time.time()` reading taken at
`start_time`, `t1` the reading taken after the backend call settles (on either path).
Raises `RuntimeError("Sandbox is required for execution")` when no sandbox is configured;
otherwise invokes the backend once and normalizes the response or the caught exception
into an `ExecutionResult`. -/
def Interpreter.run (self : Interpreter) (code : String) (reset_session : Bool)
    (naturaldelta : Rat → String) (t0 t1 : Rat) : Except PyError ExecutionResult :=
  match self.sandbox with
  | none => Except.error ⟨"RuntimeError", "Sandbox is required for execution"⟩
  | some sb =>
    match sb ["python3"] code self.timeout self.working_dir with
    | SandboxOutcome.ok stdout stderr returncode =>
      let exec_time := t1 - t0
      let output : List String :=
        (if stderr ≠ "" then [stderr] else [])
          ++ (if stdout ≠ "" then [stdout] else [])
          ++ [timingLine naturaldelta exec_time self.timeout]
      Except.ok
        { term_out := output
          exec_time := exec_time
          exc_type := if returncode = 0 then none else some runtimeFailureTag
          exc_info := if returncode ≠ 0 then some [("returncode", DictVal.int returncode)] else none
          exc_stack := none }
    | SandboxOutcome.raises cn msg =>
      let exec_time := t1 - t0
      Except.ok
        { term_out := [msg]
          exec_time := exec_time
          exc_type := some cn
          exc_info := some [("error", DictVal.str msg)]
          exc_stack := none }

/-- Boolean infix test on character lists, used to state what it means for a
string payload to carry (mention) another string. -/
def charsInfix (s t : List Char) : Bool :=
  (List.range (t.length + 1)).any fun i => s.isPrefixOf (t.drop i)

/-- A dict carries a string when the string occurs as a key or inside a string value. -/
def PyDict.carries (d : PyDict) (s : String) : Bool :=
  d.any fun kv =>
    kv.1 = s ||
      match kv.2 with
      | DictVal.str t => charsInfix s.data t.data
      | DictVal.int _ => false

/- Concrete demo values used by witnesses and counterexamples. -/

/-- A concrete duration formatter standing in for `humanize.naturaldelta`. -/
def demoDelta : Rat → String := fun _ => "a moment"

/-- A backend whose invocation raises `ConnectionError("connection reset")`. -/
def connSandbox : Sandbox := fun _ _ _ _ =>
  SandboxOutcome.raises "ConnectionError" "connection reset"

/-- An interpreter wired to `connSandbox`. -/
def connInterp : Interpreter :=
  { working_dir := "/tmp", sandbox := some connSandbox }

/-- A backend whose invocation raises `ValueError("boom")`. -/
def valSandbox : Sandbox := fun _ _ _ _ =>
  SandboxOutcome.raises "ValueError" "boom"

/-- An interpreter wired to `valSandbox`. -/
def valInterp : Interpreter :=
  { working_dir := "/tmp", sandbox := some valSandbox }

/-- A backend whose invocation raises `RuntimeError("sandbox exploded")`. -/
def rtErrSandbox : Sandbox := fun _ _ _ _ =>
  SandboxOutcome.raises "RuntimeError" "sandbox exploded"

/-- An interpreter wired to `rtErrSandbox`. -/
def rtErrInterp : Interpreter :=
  { working_dir := "/tmp", sandbox := some rtErrSandbox }

/-- A backend that responds with empty output and returncode 1. -/
def exit1Sandbox : Sandbox := fun _ _ _ _ => SandboxOutcome.ok "" "" 1

/-- An interpreter wired to `exit1Sandbox`. -/
def exit1Interp : Interpreter :=
  { working_dir := "/tmp", sandbox := some exit1Sandbox }

/-- A backend that responds with stdout `"42\n"`, empty stderr, returncode 0. -/
def fortyTwoSandbox : Sandbox := fun _ _ _ _ => SandboxOutcome.ok "42\n" "" 0

/-- An interpreter wired to `fortyTwoSandbox`. -/
def fortyTwoInterp : Interpreter :=
  { working_dir := "/tmp", sandbox := some fortyTwoSandbox }

/-- An interpreter with no sandbox configured. -/
def noSandboxInterp : Interpreter :=
  { working_dir := "/tmp" }

/-- Inversion: any `ExecutionResult` actually returned by `run` comes from one of the
two normalization branches, with all five fields determined by the backend outcome. -/
theorem run_ok_cases
    (self : Interpreter) (code : String) (rs : Bool) (nd : Rat → String) (t0 t1 : Rat)
    (r : ExecutionResult)
    (h : self.run code rs nd t0 t1 = Except.ok r) :
    ∃ sb, self.sandbox = some sb ∧
      ((∃ stdout stderr rc,
          sb ["python3"] code self.timeout self.working_dir = SandboxOutcome.ok stdout stderr rc ∧
          r = { term_out :=
                  (if stderr ≠ "" then [stderr] else [])
                    ++ (if stdout ≠ "" then [stdout] else [])
                    ++ [timingLine nd (t1 - t0) self.timeout]
                exec_time := t1 - t0
                exc_type := if rc = 0 then none else some runtimeFailureTag
                exc_info :=
                  if rc ≠ 0 then some [("returncode", DictVal.int rc)] else none
                exc_stack := none }) ∨
       (∃ cn msg,
          sb ["python3"] code self.timeout self.working_dir = SandboxOutcome.raises cn msg ∧
          r = { term_out := [msg]
                exec_time := t1 - t0
                exc_type := some cn
                exc_info := some [("error", DictVal.str msg)]
                exc_stack := none })) := by
  unfold Interpreter.run at h
  split at h
  · simp at h
  next sb hsb =>
    refine ⟨sb, hsb, ?_⟩
    split at h
    next stdout stderr rc hout =>
      simp only [Except.ok.injEq] at h
      exact Or.inl ⟨stdout, stderr, rc, hout, h.symm⟩
    next cn msg hout =>
      simp only [Except.ok.injEq] at h
      exact Or.inr ⟨cn, msg, hout, h.symm⟩

/-- Claim C1 is false as stated: on the exception path the code does NOT use one fixed
`dispatch failure` tag for `exc_type` (the tag varies with the exception class: two
different backend errors produce two different tags), and `exc_info` carries only the
error message, not the kind (class) name of the error. -/
theorem dispatch_tag_not_fixed_cx :
    Except.map ExecutionResult.exc_type (connInterp.run "x" true demoDelta 0 1) =
        Except.ok (some "ConnectionError") ∧
    Except.map ExecutionResult.exc_type (valInterp.run "x" true demoDelta 0 1) =
        Except.ok (some "ValueError") ∧
    ("ConnectionError" : String) ≠ "ValueError" ∧
    Except.map ExecutionResult.exc_info (connInterp.run "x" true demoDelta 0 1) =
        Except.ok (some [("error", DictVal.str "connection reset")]) ∧
    PyDict.carries [("error", DictVal.str "connection reset")] "ConnectionError" = false := by
  refine ⟨?_, ?_, by decide, ?_, by decide⟩
  · simp [Interpreter.run, connInterp, connSandbox, Except.map]
  · simp [Interpreter.run, valInterp, valSandbox, Except.map]
  · simp [Interpreter.run, connInterp, connSandbox, Except.map]

/-- Claim C1 (amended): when the backend invocation raises, `run` returns a normal
`ExecutionResult` (no exception escapes), whose `term_out` is exactly one entry holding
the textual representation of the error, whose `exc_type` is the class name of the
error, and whose `exc_info` carries the error message under the key `error`. -/
theorem run_backend_raise_normalized
    (self : Interpreter) (code : String) (rs : Bool) (nd : Rat → String) (t0 t1 : Rat)
    (sb : Sandbox) (cn msg : String)
    (hsb : self.sandbox = some sb)
    (hout : sb ["python3"] code self.timeout self.working_dir = SandboxOutcome.raises cn msg) :
    self.run code rs nd t0 t1 =
      Except.ok
        { term_out := [msg]
          exec_time := t1 - t0
          exc_type := some cn
          exc_info := some [("error", DictVal.str msg)]
          exc_stack := none } := by
  simp [Interpreter.run, hsb, hout]

/-- Witness for the amended claim C1, at the backend raising
`ConnectionError("connection reset")`. -/
theorem run_backend_raise_normalized_witness :
    connInterp.run "x" true demoDelta 0 1 =
      Except.ok
        { term_out := ["connection reset"]
          exec_time := 1 - 0
          exc_type := some "ConnectionError"
          exc_info := some [("error", DictVal.str "connection reset")]
          exc_stack := none } :=
  run_backend_raise_normalized connInterp "x" true demoDelta 0 1 connSandbox
    "ConnectionError" "connection reset" rfl rfl

/-- Claim C2: for a backend response received without an exception, exit status zero
yields `exc_type` and `exc_info` both absent, and a non-zero exit status `rc` yields
`exc_type` equal to the runtime-failure tag (the constant string `RuntimeError` in the
code) and `exc_info` holding exactly `rc` under the key `returncode`. -/
theorem run_exit_status_classification
    (self : Interpreter) (code : String) (rs : Bool) (nd : Rat → String) (t0 t1 : Rat)
    (sb : Sandbox) (stdout stderr : String) (rc : Int)
    (hsb : self.sandbox = some sb)
    (hout : sb ["python3"] code self.timeout self.working_dir =
      SandboxOutcome.ok stdout stderr rc) :
    ∃ r, self.run code rs nd t0 t1 = Except.ok r ∧
      (rc = 0 → r.exc_type = none ∧ r.exc_info = none) ∧
      (rc ≠ 0 → r.exc_type = some runtimeFailureTag ∧
        r.exc_info = some [("returncode", DictVal.int rc)]) := by
  have e : self.run code rs nd t0 t1 =
      Except.ok
        { term_out :=
            (if stderr ≠ "" then [stderr] else [])
              ++ (if stdout ≠ "" then [stdout] else [])
              ++ [timingLine nd (t1 - t0) self.timeout]
          exec_time := t1 - t0
          exc_type := if rc = 0 then none else some runtimeFailureTag
          exc_info := if rc ≠ 0 then some [("returncode", DictVal.int rc)] else none
          exc_stack := none } := by
    simp [Interpreter.run, hsb, hout]
  refine ⟨_, e, fun h0 => ?_, fun h0 => ?_⟩
  · simp [h0]
  · simp [h0]

/-- Witness for claim C2, at a backend response with returncode 1. -/
theorem run_exit_status_classification_witness :
    ∃ r, exit1Interp.run "x" true demoDelta 0 1 = Except.ok r ∧
      ((1 : Int) = 0 → r.exc_type = none ∧ r.exc_info = none) ∧
      ((1 : Int) ≠ 0 → r.exc_type = some runtimeFailureTag ∧
        r.exc_info = some [("returncode", DictVal.int 1)]) :=
  run_exit_status_classification exit1Interp "x" true demoDelta 0 1 exit1Sandbox
    "" "" 1 rfl rfl

/-- Claim C3 is false as stated: when the raised exception is itself a Python
`RuntimeError`, the exception path produces the same `exc_type` value
(`"RuntimeError"`) as the non-zero-exit path, so the two failure kinds collide and
`exc_type` alone cannot tell the two causes apart. -/
theorem failure_kinds_collide_cx :
    Except.map ExecutionResult.exc_type (exit1Interp.run "x" true demoDelta 0 1) =
        Except.ok (some runtimeFailureTag) ∧
    Except.map ExecutionResult.exc_type (rtErrInterp.run "x" true demoDelta 0 1) =
        Except.ok (some runtimeFailureTag) := by
  constructor
  · simp [Interpreter.run, exit1Interp, exit1Sandbox, runtimeFailureTag, Except.map]
  · simp [Interpreter.run, rtErrInterp, rtErrSandbox, runtimeFailureTag, Except.map]

/-- Claim C3 (amended): the two failure kinds are distinguishable by `exc_type` alone
exactly when the raised exception class is not named `RuntimeError`: a non-zero-exit
result and an exception result whose class name differs from `RuntimeError` carry
different `exc_type` values. -/
theorem failure_kinds_differ_unless_runtimeerror
    (i₁ i₂ : Interpreter) (code₁ code₂ : String) (rs₁ rs₂ : Bool)
    (nd₁ nd₂ : Rat → String) (a b c d : Rat)
    (sb₁ sb₂ : Sandbox) (stdout stderr : String) (rc : Int) (cn msg : String)
    (h₁ : i₁.sandbox = some sb₁)
    (ho₁ : sb₁ ["python3"] code₁ i₁.timeout i₁.working_dir =
      SandboxOutcome.ok stdout stderr rc)
    (hrc : rc ≠ 0)
    (h₂ : i₂.sandbox = some sb₂)
    (ho₂ : sb₂ ["python3"] code₂ i₂.timeout i₂.working_dir =
      SandboxOutcome.raises cn msg)
    (hcn : cn ≠ runtimeFailureTag) :
    ∃ r₁ r₂, i₁.run code₁ rs₁ nd₁ a b = Except.ok r₁ ∧
      i₂.run code₂ rs₂ nd₂ c d = Except.ok r₂ ∧
      r₁.exc_type ≠ r₂.exc_type := by
  have e₁ : i₁.run code₁ rs₁ nd₁ a b =
      Except.ok
        { term_out :=
            (if stderr ≠ "" then [stderr] else [])
              ++ (if stdout ≠ "" then [stdout] else [])
              ++ [timingLine nd₁ (b - a) i₁.timeout]
          exec_time := b - a
          exc_type := if rc = 0 then none else some runtimeFailureTag
          exc_info := if rc ≠ 0 then some [("returncode", DictVal.int rc)] else none
          exc_stack := none } := by
    simp [Interpreter.run, h₁, ho₁]
  have e₂ : i₂.run code₂ rs₂ nd₂ c d =
      Except.ok
        { term_out := [msg]
          exec_time := d - c
          exc_type := some cn
          exc_info := some [("error", DictVal.str msg)]
          exc_stack := none } := by
    simp [Interpreter.run, h₂, ho₂]
  refine ⟨_, _, e₁, e₂, ?_⟩
  simp only [hrc, if_neg]
  intro hcontra
  exact hcn (Option.some.inj hcontra).symm

/-- Witness for the amended claim C3: a returncode-1 response against a raised
`ConnectionError`. -/
theorem failure_kinds_differ_unless_runtimeerror_witness :
    ∃ r₁ r₂, exit1Interp.run "x" true demoDelta 0 1 = Except.ok r₁ ∧
      connInterp.run "y" false demoDelta 0 1 = Except.ok r₂ ∧
      r₁.exc_type ≠ r₂.exc_type :=
  failure_kinds_differ_unless_runtimeerror exit1Interp connInterp "x" "y" true false
    demoDelta demoDelta 0 1 0 1 exit1Sandbox connSandbox "" "" 1 "ConnectionError"
    "connection reset" rfl rfl (by decide) rfl rfl (by decide)

/-- Claim C5: an Interpreter constructed without a sandbox never returns a normalized
result: every call to `run` immediately raises
`RuntimeError("Sandbox is required for execution")`. -/
theorem run_without_sandbox_raises
    (self : Interpreter) (code : String) (rs : Bool) (nd : Rat → String) (t0 t1 : Rat)
    (h : self.sandbox = none) :
    self.run code rs nd t0 t1 =
        Except.error ⟨"RuntimeError", "Sandbox is required for execution"⟩ ∧
      ∀ r : ExecutionResult, self.run code rs nd t0 t1 ≠ Except.ok r := by
  have e : self.run code rs nd t0 t1 =
      Except.error ⟨"RuntimeError", "Sandbox is required for execution"⟩ := by
    simp [Interpreter.run, h]
  exact ⟨e, fun r hr => by rw [e] at hr; exact Except.noConfusion hr⟩

/-- Witness for claim C5, at a concrete Interpreter with no sandbox configured. -/
theorem run_without_sandbox_raises_witness :
    noSandboxInterp.run "print(1)" true demoDelta 0 1 =
        Except.error ⟨"RuntimeError", "Sandbox is required for execution"⟩ ∧
      ∀ r : ExecutionResult,
        noSandboxInterp.run "print(1)" true demoDelta 0 1 ≠ Except.ok r :=
  run_without_sandbox_raises noSandboxInterp "print(1)" true demoDelta 0 1 rfl

/-- Claim C4: for every backend response received without an exception, `term_out` is
built in exactly this order: the stderr text if non-empty, then the stdout text if
non-empty, then the synthesized line stating elapsed time and the configured time
limit; an exit status of 0 additionally leaves `exc_type` absent. -/
theorem run_output_order
    (self : Interpreter) (code : String) (rs : Bool) (nd : Rat → String) (t0 t1 : Rat)
    (sb : Sandbox) (stdout stderr : String) (rc : Int)
    (hsb : self.sandbox = some sb)
    (hout : sb ["python3"] code self.timeout self.working_dir =
      SandboxOutcome.ok stdout stderr rc) :
    ∃ r, self.run code rs nd t0 t1 = Except.ok r ∧
      r.term_out =
        (if stderr ≠ "" then [stderr] else [])
          ++ (if stdout ≠ "" then [stdout] else [])
          ++ [timingLine nd (t1 - t0) self.timeout] ∧
      (rc = 0 → r.exc_type = none) := by
  have e : self.run code rs nd t0 t1 =
      Except.ok
        { term_out :=
            (if stderr ≠ "" then [stderr] else [])
              ++ (if stdout ≠ "" then [stdout] else [])
              ++ [timingLine nd (t1 - t0) self.timeout]
          exec_time := t1 - t0
          exc_type := if rc = 0 then none else some runtimeFailureTag
          exc_info := if rc ≠ 0 then some [("returncode", DictVal.int rc)] else none
          exc_stack := none } := by
    simp [Interpreter.run, hsb, hout]
  exact ⟨_, e, rfl, fun h0 => by simp [h0]⟩

/-- Witness for claim C4: the spec scenario with stdout `"42\n"`, empty stderr and
exit status 0, under the concrete duration formatter `demoDelta`. -/
theorem run_output_order_witness :
    ∃ r, fortyTwoInterp.run "print(42)" true demoDelta 0 1 = Except.ok r ∧
      r.term_out =
        ["42\n", "Execution time: a moment seconds (time limit is a moment)."] ∧
      r.exc_type = none := by
  obtain ⟨r, hr, hterm, hexc⟩ :=
    run_output_order fortyTwoInterp "print(42)" true demoDelta 0 1 fortyTwoSandbox
      "42\n" "" 0 rfl rfl
  refine ⟨r, hr, ?_, hexc rfl⟩
  rw [hterm]
  decide

/-- Claim C6: in every `ExecutionResult` returned by `run`, on the success path and on
both failure paths, `exc_type` is absent if and only if `exc_info` is absent. -/
theorem failure_kind_iff_failure_detail
    (self : Interpreter) (code : String) (rs : Bool) (nd : Rat → String) (t0 t1 : Rat)
    (r : ExecutionResult)
    (h : self.run code rs nd t0 t1 = Except.ok r) :
    (r.exc_type = none ↔ r.exc_info = none) := by
  rcases run_ok_cases self code rs nd t0 t1 r h with
    ⟨sb, hsb, ⟨stdout, stderr, rc, hout, hr⟩ | ⟨cn, msg, hout, hr⟩⟩
  · subst hr
    by_cases hrc : rc = 0 <;> simp [hrc]
  · subst hr
    simp

/-- The concrete result returned in the 42-scenario, used by several witnesses. -/
def fortyTwoResult : ExecutionResult :=
  { term_out := ["42\n", timingLine demoDelta (1 - 0) 3600]
    exec_time := 1 - 0
    exc_type := none
    exc_info := none
    exc_stack := none }

/-- Witness for claim C6, at the result of the 42-scenario. -/
theorem failure_kind_iff_failure_detail_witness :
    fortyTwoResult.exc_type = none ↔ fortyTwoResult.exc_info = none :=
  failure_kind_iff_failure_detail fortyTwoInterp "print(42)" true demoDelta 0 1
    fortyTwoResult rfl

/-- Claim C7: in every `ExecutionResult` returned by `run`, including the
exception path, `exec_time` equals the local wall-clock delta between the two
`time.time()` readings, hence is non-negative whenever the clock is monotone. -/
theorem exec_time_local_delta
    (self : Interpreter) (code : String) (rs : Bool) (nd : Rat → String) (t0 t1 : Rat)
    (r : ExecutionResult)
    (h : self.run code rs nd t0 t1 = Except.ok r) :
    r.exec_time = t1 - t0 ∧ (t0 ≤ t1 → 0 ≤ r.exec_time) := by
  have hx : r.exec_time = t1 - t0 := by
    rcases run_ok_cases self code rs nd t0 t1 r h with
      ⟨sb, hsb, ⟨stdout, stderr, rc, hout, hr⟩ | ⟨cn, msg, hout, hr⟩⟩ <;> subst hr <;> rfl
  exact ⟨hx, fun hle => hx ▸ sub_nonneg.mpr hle⟩

/-- Witness for claim C7, at the result of the 42-scenario with readings 0 and 1. -/
theorem exec_time_local_delta_witness :
    fortyTwoResult.exec_time = 1 - 0 ∧ ((0 : Rat) ≤ 1 → 0 ≤ fortyTwoResult.exec_time) :=
  exec_time_local_delta fortyTwoInterp "print(42)" true demoDelta 0 1 fortyTwoResult rfl

/-- Claim C8: two calls to `run` on the same Interpreter with the same code, the same
clock readings and the same backend, one with `reset_session` true and one with it
false, return equal results: `reset_session` never changes the outcome. -/
theorem reset_session_no_effect
    (self : Interpreter) (code : String) (nd : Rat → String) (t0 t1 : Rat)
    (rs₁ rs₂ : Bool) :
    self.run code rs₁ nd t0 t1 = self.run code rs₂ nd t0 t1 := rfl

/-- Claim C9: every `ExecutionResult` returned by `run` has a non-empty `term_out`:
the response path unconditionally appends the synthesized timing line, and the
exception path produces exactly one entry. -/
theorem term_out_nonempty
    (self : Interpreter) (code : String) (rs : Bool) (nd : Rat → String) (t0 t1 : Rat)
    (r : ExecutionResult)
    (h : self.run code rs nd t0 t1 = Except.ok r) :
    r.term_out ≠ [] := by
  rcases run_ok_cases self code rs nd t0 t1 r h with
    ⟨sb, hsb, ⟨stdout, stderr, rc, hout, hr⟩ | ⟨cn, msg, hout, hr⟩⟩ <;> subst hr <;> simp

/-- Witness for claim C9, at a backend response with empty stdout and stderr. -/
theorem term_out_nonempty_witness :
    ([timingLine demoDelta (1 - 0) 3600] : List String) ≠ [] :=
  term_out_nonempty exit1Interp "x" true demoDelta 0 1
    { term_out := [timingLine demoDelta (1 - 0) 3600]
      exec_time := 1 - 0
      exc_type := some runtimeFailureTag
      exc_info := some [("returncode", DictVal.int 1)]
      exc_stack := none } rfl

/-- Claim C10: in every failing result, the shape of `exc_info` identifies the cause:
it is a single-entry dict keyed `returncode` (holding the exit status) exactly when
the failure came from a non-zero exit status, and a single-entry dict keyed `error`
(holding the stringified exception) exactly when it came from a raised exception. -/
theorem failure_detail_shape_identifies_cause
    (self : Interpreter) (code : String) (rs : Bool) (nd : Rat → String) (t0 t1 : Rat)
    (sb : Sandbox) (r : ExecutionResult)
    (hsb : self.sandbox = some sb)
    (h : self.run code rs nd t0 t1 = Except.ok r) :
    ((∃ stdout stderr rc, rc ≠ 0 ∧
        sb ["python3"] code self.timeout self.working_dir =
          SandboxOutcome.ok stdout stderr rc) ↔
      (∃ n, r.exc_info = some [("returncode", DictVal.int n)])) ∧
    ((∃ cn msg,
        sb ["python3"] code self.timeout self.working_dir =
          SandboxOutcome.raises cn msg) ↔
      (∃ m, r.exc_info = some [("error", DictVal.str m)])) ∧
    (∀ stdout stderr rc,
      sb ["python3"] code self.timeout self.working_dir =
          SandboxOutcome.ok stdout stderr rc →
      rc ≠ 0 → r.exc_info = some [("returncode", DictVal.int rc)]) ∧
    (∀ cn msg,
      sb ["python3"] code self.timeout self.working_dir =
          SandboxOutcome.raises cn msg →
      r.exc_info = some [("error", DictVal.str msg)]) := by
  obtain ⟨sb', hsb', hcase⟩ := run_ok_cases self code rs nd t0 t1 r h
  rw [hsb] at hsb'
  obtain rfl : sb' = sb := (Option.some.inj hsb').symm
  rcases hcase with ⟨stdout, stderr, rc, hout, hr⟩ | ⟨cn, msg, hout, hr⟩
  · subst hr
    by_cases hrc : rc = 0
    · subst hrc
      simp [hout]
      exact fun _ _ x2 hx2 _ _ he => hx2 he.symm
    · simp [hout, hrc]
      exact ⟨stdout, stderr, rc, hrc, rfl, rfl, rfl⟩
  · subst hr
    simp [hout]

/-- The concrete result returned in the returncode-1 scenario. -/
def exit1Result : ExecutionResult :=
  { term_out := [timingLine demoDelta (1 - 0) 3600]
    exec_time := 1 - 0
    exc_type := some runtimeFailureTag
    exc_info := some [("returncode", DictVal.int 1)]
    exc_stack := none }

/-- Witness for claim C10, at a backend response with returncode 1. -/
theorem failure_detail_shape_identifies_cause_witness :
    ((∃ stdout stderr rc, rc ≠ 0 ∧
        exit1Sandbox ["python3"] "x" exit1Interp.timeout exit1Interp.working_dir =
          SandboxOutcome.ok stdout stderr rc) ↔
      (∃ n, exit1Result.exc_info = some [("returncode", DictVal.int n)])) ∧
    ((∃ cn msg,
        exit1Sandbox ["python3"] "x" exit1Interp.timeout exit1Interp.working_dir =
          SandboxOutcome.raises cn msg) ↔
      (∃ m, exit1Result.exc_info = some [("error", DictVal.str m)])) ∧
    (∀ stdout stderr rc,
      exit1Sandbox ["python3"] "x" exit1Interp.timeout exit1Interp.working_dir =
          SandboxOutcome.ok stdout stderr rc →
      rc ≠ 0 → exit1Result.exc_info = some [("returncode", DictVal.int rc)]) ∧
    (∀ cn msg,
      exit1Sandbox ["python3"] "x" exit1Interp.timeout exit1Interp.working_dir =
          SandboxOutcome.raises cn msg →
      exit1Result.exc_info = some [("error", DictVal.str msg)]) :=
  failure_detail_shape_identifies_cause exit1Interp "x" true demoDelta 0 1
    exit1Sandbox exit1Result rfl rfl

end AideInterp
